import Mathlib

/-!
Verification development for the `webthings-client` library
(`src/webthings-client.ts`). The definitions below are a shallow embedding
of the client's three components: the transport-config resolver
(`WebThingsClient.local`), the request executor (`request` and the public
`get`/`put`/`post`/`delete` operations), and the streaming channel
(`connect`'s inbound message handler, `subscribeEvents`, `disconnect`).

JSON values are modelled by the inductive `Json`. JavaScript's `undefined`
is modelled as `Option.none` wherever a value may be absent (property access
on a missing key, an absent header, an omitted body). JSON numbers are
modelled as `Int`: every numeric literal the protocol exercises here is
integral, and no arithmetic is performed on them. Objects are association
lists in insertion order; keys are assumed unique (the spec's data model
declares frame `data` keys unique, and `JSON.parse` de-duplicates).
-/

set_option autoImplicit false
set_option linter.unusedVariables false

namespace WebThings

/-- JSON values as produced by `JSON.parse` on a frame payload. -/
inductive Json where
  | null
  | bool (b : Bool)
  | num (n : Int)
  | str (s : String)
  | arr (elems : List Json)
  | obj (fields : List (String × Json))

/-- JavaScript property access `o[k]` on a parsed JSON object:
the value under the first binding of `k`, `none` when the key is absent
(JavaScript `undefined`). -/
def jsGet (fields : List (String × Json)) (k : String) : Option Json :=
  match fields with
  | [] => none
  | (k', v) :: rest => if k' = k then some v else jsGet rest k

/-- JavaScript `for (const key in x)` over a JSON value: the own enumerable
keys. Objects yield their field names in insertion order, arrays and strings
yield their index strings, and primitives (including `null`) yield nothing. -/
def jsForInKeys : Json → List String
  | Json.obj fields => fields.map Prod.fst
  | Json.arr elems => (List.range elems.length).map toString
  | Json.str s => (List.range s.length).map toString
  | _ => []

/-- JavaScript indexed access `x[key]` for the values `jsForInKeys` can
produce: field lookup on objects, numeric indexing on arrays, one-character
strings for string indexing, `undefined` (`none`) otherwise. -/
def jsIndex (x : Json) (k : String) : Option Json :=
  match x with
  | Json.obj fields => jsGet fields k
  | Json.arr elems =>
    match k.toNat? with
    | some i => elems.get? i
    | none => none
  | Json.str s =>
    match k.toNat? with
    | some i => (s.data.get? i).map (fun c => Json.str (String.singleton c))
    | none => none
  | _ => none

/-- JavaScript `Object.keys(x)`: throws a `TypeError` on `null`
(modelled as `Except.error`), otherwise returns the own enumerable keys. -/
def objKeys : Json → Except Unit (List String)
  | Json.null => Except.error ()
  | x => Except.ok (jsForInKeys x)

/-- `switch (msg.messageType) \x7b case 's': ... \x7d` matches a case label
only when the discriminator is exactly that string (strict equality). -/
def tyIs (mt : Option Json) (s : String) : Bool :=
  match mt with
  | some (Json.str t) => t = s
  | _ => false

/-- Truthiness of a JavaScript string-or-absent value: `undefined`, `null`
and the empty string are falsy. Models `if (message.utf8Data)` and
`if (response.headers.get('Location'))`. -/
def jsTruthyStr : Option String → Bool
  | some s => s ≠ ""
  | none => false

/-- One event emission observable on the channel's `EventEmitter`, in the
order the message handler performs them. `warnUnknown` models the
`console.warn('Unknown message from socket', ...)` calls. -/
inductive Event where
  | message (id data : Option Json)
  | propertyChanged (id : Option Json) (key : String) (value : Option Json)
  | actionTriggered (id : Option Json) (key : String) (value : Option Json)
  | eventRaised (id : Option Json) (key : String) (value : Option Json)
  | connectStateChanged (id data : Option Json)
  | deviceModified (id data : Option Json)
  | deviceAdded (id data : Option Json)
  | deviceRemoved (id data : Option Json)
  | pair (value : Option Json)
  | warnUnknown

/-- `true` exactly on the generic `message` event. -/
def isMessageEv : Event → Bool
  | Event.message _ _ => true
  | _ => false

/-- Outcome of dispatching one inbound frame: the events emitted, in
emission order, and whether an exception escaped the handler (`threw`).
Events emitted before a throw are kept. -/
structure DispatchResult where
  events : List Event
  threw : Bool

/-- The `switch (msg.messageType)` of the branch for frames carrying both
`id` and `data` (`webthings-client.ts` lines 147-177): a per-key fan-out for
`propertyStatus`/`actionStatus`/`event`, a single event for the four
device-level types, and a `console.warn` for anything else. -/
def withIdEvents (idv : Option Json) (d : Json) (mt : Option Json) : List Event :=
  if tyIs mt "propertyStatus" then
    (jsForInKeys d).map (fun k => Event.propertyChanged idv k (jsIndex d k))
  else if tyIs mt "actionStatus" then
    (jsForInKeys d).map (fun k => Event.actionTriggered idv k (jsIndex d k))
  else if tyIs mt "event" then
    (jsForInKeys d).map (fun k => Event.eventRaised idv k (jsIndex d k))
  else if tyIs mt "connected" then [Event.connectStateChanged idv (some d)]
  else if tyIs mt "thingModified" then [Event.deviceModified idv (some d)]
  else if tyIs mt "thingAdded" then [Event.deviceAdded idv (some d)]
  else if tyIs mt "thingRemoved" then [Event.deviceRemoved idv (some d)]
  else [Event.warnUnknown]

/-- The branch for frames carrying `data` but no `id`
(lines 178-188): only an `actionStatus` whose data has exactly the single
key `pair` raises a `pair` event; other `actionStatus` shapes fall through
silently (`break` with no warn), and every other `messageType` hits the
`default` case's `console.warn`. `Object.keys(null)` throws. -/
def noIdRest (d : Json) (mt : Option Json) : List Event × Bool :=
  if tyIs mt "actionStatus" then
    match objKeys d with
    | Except.error _ => ([], true)
    | Except.ok ks =>
      if ks = ["pair"] then ([Event.pair (jsIndex d "pair")], false)
      else ([], false)
  else ([Event.warnUnknown], false)

/-- Events after the generic `message` event for an object payload, plus the
throw flag: the `id`-and-`data` branch, the `data`-only branch, or nothing
(lines 146-188). Membership of `id`/`data` (`'id' in msg`) coincides with
`jsGet` being `some` because `JSON.parse` never yields `undefined` values. -/
def objRest (fields : List (String × Json)) : List Event × Bool :=
  match jsGet fields "id", jsGet fields "data" with
  | some i, some d => (withIdEvents (some i) d (jsGet fields "messageType"), false)
  | none, some d => noIdRest d (jsGet fields "messageType")
  | _, none => ([], false)

/-- Handler body for a parsed object payload: the generic
`this.emit('message', msg.id, msg.data)` (line 145) always fires first,
then the shape-dependent rest. -/
def handleObj (fields : List (String × Json)) : DispatchResult :=
  ⟨Event.message (jsGet fields "id") (jsGet fields "data") :: (objRest fields).1,
   (objRest fields).2⟩

/-- Handler body on the value returned by `JSON.parse`. Non-object payloads:
`null` throws on the first property access `msg.id` before any emission;
arrays emit the generic `message(undefined, undefined)` and fail both `in`
checks; other primitives emit `message(undefined, undefined)` and then
`'id' in msg` throws a `TypeError`. -/
def handleMsg : Json → DispatchResult
  | Json.obj fields => handleObj fields
  | Json.null => ⟨[], true⟩
  | Json.arr _ => ⟨[Event.message none none], false⟩
  | _ => ⟨[Event.message none none], true⟩

/-- Dispatch of one raw inbound frame (lines 142-190): only non-empty utf8
text frames are considered (`message.type === 'utf8' && message.utf8Data`);
their payload goes through `JSON.parse`, whose failure (modelled as
`Except.error`) is an uncaught exception — there is no try/catch. -/
def dispatch (ty : String) (raw : Option String) (parsed : Except Unit Json) :
    DispatchResult :=
  if ty = "utf8" ∧ jsTruthyStr raw = true then
    match parsed with
    | Except.error _ => ⟨[], true⟩
    | Except.ok j => handleMsg j
  else ⟨[], false⟩

/-- Connection descriptor held by a `WebThingsClient` instance: the
constructor arguments (lines 46-63). `protocol` and `webSocketProtocol`
are derived below. -/
structure ClientCfg where
  address : String
  port : Nat
  token : String
  useHttps : Bool
  skipValidation : Bool

/-- `this.protocol = useHttps ? 'https' : 'http'` (line 48). -/
def protocolOf (c : ClientCfg) : String := if c.useHttps then "https" else "http"

/-- `this.webSocketProtocol = useHttps ? 'wss' : 'ws'` (line 49). -/
def webSocketProtocol (c : ClientCfg) : String := if c.useHttps then "wss" else "ws"

/-- `WebThingsClient.local(token)` (lines 15-33): probe
`http://localhost:8080` without following redirects; a truthy `Location`
response header (`probeLocation`, `none` when absent) switches to port 4443,
HTTPS, and relaxed certificate validation. -/
def resolveLocal (token : String) (probeLocation : Option String) : ClientCfg :=
  if jsTruthyStr probeLocation = true then ⟨"localhost", 4443, token, true, true⟩
  else ⟨"localhost", 8080, token, false, false⟩

/-- JavaScript string coercion of a JSON value's array elements for
`Array.prototype.toString` (join with commas, `null` rendered empty). -/
def jsArrElems : List Json → List String
  | [] => []
  | Json.null :: xs => "" :: jsArrElems xs
  | Json.bool b :: xs => (cond b "true" "false") :: jsArrElems xs
  | Json.num n :: xs => toString n :: jsArrElems xs
  | Json.str s :: xs => s :: jsArrElems xs
  | Json.arr ys :: xs => String.intercalate "," (jsArrElems ys) :: jsArrElems xs
  | Json.obj _ :: xs => "[object Object]" :: jsArrElems xs

/-- JavaScript template-literal coercion of a JSON value. -/
def jsToString : Json → String
  | Json.null => "null"
  | Json.bool b => cond b "true" "false"
  | Json.num n => toString n
  | Json.str s => s
  | Json.arr xs => String.intercalate "," (jsArrElems xs)
  | Json.obj _ => "[object Object]"

/-- `` `$\x7bbody\x7d` `` where `body : unknown` may be `undefined`. -/
def jsTemplateOpt : Option Json → String
  | none => "undefined"
  | some j => jsToString j

/-- One character of `JSON.stringify` string output. Control characters are
not escaped here: no string this protocol layer serializes contains one. -/
def escapeJsonChar (c : Char) : String :=
  if c = '"' then "\\\"" else if c = '\\' then "\\\\" else String.singleton c

/-- `JSON.stringify` escaping of a string body. -/
def escapeJsonString (s : String) : String :=
  String.join (s.data.map escapeJsonChar)

mutual
/-- `JSON.stringify` of a JSON value. -/
def stringifyJson : Json → String
  | Json.null => "null"
  | Json.bool b => cond b "true" "false"
  | Json.num n => toString n
  | Json.str s => "\"" ++ escapeJsonString s ++ "\""
  | Json.arr xs => "[" ++ String.intercalate "," (stringifyList xs) ++ "]"
  | Json.obj fs => "\x7b" ++ String.intercalate "," (stringifyFields fs) ++ "\x7d"

def stringifyList : List Json → List String
  | [] => []
  | x :: xs => stringifyJson x :: stringifyList xs

def stringifyFields : List (String × Json) → List String
  | [] => []
  | (k, v) :: fs =>
    ("\"" ++ escapeJsonString k ++ "\":" ++ stringifyJson v) :: stringifyFields fs
end

/-- `JSON.stringify` at the top level: `JSON.stringify(undefined)` is
`undefined`, so an absent body stays absent. -/
def stringifyTop : Option Json → Option String
  | none => none
  | some j => some (stringifyJson j)

/-- The `args` record of `request` (line 75); absent keys are falsy. -/
structure RequestArgs where
  nobody : Bool
  strbody : Bool
  expectnocontent : Bool

/-- The `fetch` parameters `request` builds: method, headers in insertion
order, and the body string (absent for `nobody` specs and for
`JSON.stringify(undefined)`). -/
structure FetchParams where
  method : String
  headers : List (String × String)
  body : Option String

/-- Header and body construction of `request` (lines 76-92): always
`Accept` and a bearer `Authorization`; unless `args.nobody`, a
`Content-Type: application/json` header plus the body, serialized as a
template string when `args.strbody` and as JSON otherwise. -/
def buildParams (token method : String) (body : Option Json) (args : RequestArgs) :
    FetchParams :=
  let base := [("Accept", "application/json"), ("Authorization", "Bearer " ++ token)]
  if args.nobody then ⟨method, base, none⟩
  else
    let headers := base ++ [("Content-Type", "application/json")]
    if args.strbody then ⟨method, headers, some (jsTemplateOpt body)⟩
    else ⟨method, headers, stringifyTop body⟩

/-- What `fetch` resolved to: status line, the `Content-Type` header
(`none` when absent), and the outcome of `response.json()`
(`Except.error` when the body is not valid JSON). -/
structure FetchResponse where
  status : Nat
  statusText : String
  contentType : Option String
  jsonBody : Except Unit Json

/-- The values `request` can throw. `httpStatus` and
`unexpectedContentType` are thrown by this code as template strings
(see `RequestError.rendered`); `bodyNotJson` is the rejection of
`response.json()` itself. -/
inductive RequestError where
  | httpStatus (code : Nat) (text : String)
  | unexpectedContentType (actual : Option String)
  | bodyNotJson

/-- The exact string this code throws, when it builds one itself:
`` `$\x7bresponse.status\x7d: $\x7bresponse.statusText\x7d` `` (line 96) and
the content-type complaint (line 105, where an absent header prints as
`null`). -/
def RequestError.rendered : RequestError → Option String
  | RequestError.httpStatus code text => some (toString code ++ ": " ++ text)
  | RequestError.unexpectedContentType actual =>
    some ("Content-Type is '" ++ (match actual with | none => "null" | some s => s) ++
      "' but expected 'application/json'")
  | RequestError.bodyNotJson => none

/-- `contentType.indexOf('application/json') >= 0` for a non-empty
needle: `splitOn` yields more than one piece exactly when the needle
occurs. -/
def containsSub (s pat : String) : Bool := (s.splitOn pat).length ≠ 1

/-- Response handling of `request` (lines 95-109): any status outside
[200,300) throws the status error before anything else is looked at; then
a content type lacking `application/json` yields `null` under
`expectnocontent` and throws otherwise; then the body is parsed as JSON. -/
def handleResponse (args : RequestArgs) (resp : FetchResponse) :
    Except RequestError (Option Json) :=
  if resp.status < 200 ∨ 300 ≤ resp.status then
    Except.error (RequestError.httpStatus resp.status resp.statusText)
  else
    let ct := match resp.contentType with | none => "" | some s => s
    if containsSub ct "application/json" = false then
      if args.expectnocontent then Except.ok none
      else Except.error (RequestError.unexpectedContentType resp.contentType)
    else
      match resp.jsonBody with
      | Except.ok j => Except.ok (some j)
      | Except.error _ => Except.error RequestError.bodyNotJson

/-- `request(method, path, body, args)` against a given `fetch` outcome:
the parameters sent on the wire and the promise's settlement. `path` only
feeds the URL, never the outcome. -/
def request (c : ClientCfg) (method : String) (path : String) (body : Option Json)
    (args : RequestArgs) (resp : FetchResponse) :
    FetchParams × Except RequestError (Option Json) :=
  (buildParams c.token method body args, handleResponse args resp)

/-- The URL `request` fetches (line 93). -/
def requestUrl (c : ClientCfg) (path : String) : String :=
  protocolOf c ++ "://" ++ c.address ++ ":" ++ toString c.port ++ path

/-- `get(path)` (lines 112-114): `request('GET', path, undefined,
\x7bnobody: true\x7d)`, returned, so its outcome is the caller's. -/
def getOp (c : ClientCfg) (path : String) (resp : FetchResponse) :
    FetchParams × Except RequestError (Option Json) :=
  request c "GET" path none ⟨true, false, false⟩ resp

/-- `put(path, value)` (lines 116-118). -/
def putOp (c : ClientCfg) (path : String) (v : Option Json) (resp : FetchResponse) :
    FetchParams × Except RequestError (Option Json) :=
  request c "PUT" path v ⟨false, false, false⟩ resp

/-- `post(path, value)` (lines 120-122). -/
def postOp (c : ClientCfg) (path : String) (v : Option Json) (resp : FetchResponse) :
    FetchParams × Except RequestError (Option Json) :=
  request c "POST" path v ⟨false, false, false⟩ resp

/-- The `request('DELETE', path, '', \x7bstrbody: true, expectnocontent:
true\x7d)` call issued inside `delete` (line 125). -/
def deleteUnderlying (c : ClientCfg) (path : String) (resp : FetchResponse) :
    FetchParams × Except RequestError (Option Json) :=
  request c "DELETE" path (some (Json.str "")) ⟨false, true, true⟩ resp

/-- `delete(path)` (lines 124-126): the inner `request` promise is neither
awaited nor returned, so the promise handed to the caller resolves with
`undefined` whatever the request's outcome. -/
def deleteOp (c : ClientCfg) (path : String) (resp : FetchResponse) :
    Except RequestError Unit :=
  let _ := deleteUnderlying c path resp
  Except.ok ()

/-- The one WebSocket connection a client may hold; `closed` records
whether the underlying socket has closed since. -/
structure WebSocketConn where
  closed : Bool

/-- The client's connection field (`this.connection?`, line 43):
`none` until `connect` succeeds. The `close` handler (lines 138-140) only
re-emits `close`; it never clears the field. -/
structure ClientConn where
  connection : Option WebSocketConn

/-- A freshly constructed client: no connection. -/
def initialChannel : ClientConn := ⟨none⟩

/-- `this.connection = connection` on the transport's connect event
(line 192). -/
def afterConnect (_c : ClientConn) : ClientConn := ⟨some ⟨false⟩⟩

/-- The socket closing: the transport-level connection is closed, but
`this.connection` keeps pointing at it. -/
def afterClose (c : ClientConn) : ClientConn :=
  ⟨c.connection.map (fun _ => ⟨true⟩)⟩

/-- The spec's `Connected` channel state: a live, unclosed socket. -/
def isConnected (c : ClientConn) : Bool :=
  match c.connection with
  | some w => !w.closed
  | none => false

/-- The URL the streaming socket connects to (lines 129 and 200):
`socketUrl` plus `?jwt=` and the token, where the port is `connect`'s own
parameter. -/
def connectUrl (c : ClientCfg) (portArg : Nat) : String :=
  webSocketProtocol c ++ "://" ++ c.address ++ ":" ++ toString portArg ++
    "/things" ++ "?jwt=" ++ c.token

/-- `connect`'s `port` parameter defaults to 8080 (line 128). -/
def connectDefaultPort : Nat := 8080

/-- The object `subscribeEvents` serializes (line 219). The `eventdescs`
map copies each event's `description` keyed by name, in iteration order, so
it is the caller's name-to-description list unchanged; the device is
represented by its id (`device.id()`, a plain accessor of the entity view,
which lives outside this file's source). -/
def subscriptionJson (deviceId : String) (evs : List (String × Json)) : Json :=
  Json.obj [("messageType", Json.str "addEventSubscription"),
            ("id", Json.str deviceId),
            ("data", Json.obj evs)]

/-- `subscribeEvents(device, events)` (lines 211-220): throws
`Error('Socket not connected!')` when `this.connection` is unset, and
otherwise sends the serialized subscription on the stored connection —
whether or not that socket has since closed. The `Except.ok` value is the
exact string written. -/
def subscribeEvents (c : ClientConn) (deviceId : String)
    (evs : List (String × Json)) : Except String String :=
  match c.connection with
  | none => Except.error "Socket not connected!"
  | some _ => Except.ok (stringifyJson (subscriptionJson deviceId evs))

/-- `disconnect()` (lines 204-209): same guard, then closes the socket. -/
def disconnectOp (c : ClientConn) : Except String ClientConn :=
  match c.connection with
  | none => Except.error "Socket not connected!"
  | some _ => Except.ok (afterClose c)

/-! ## Helper lemmas -/

/-- No branch of the `id`-and-`data` switch emits another generic
`message` event. -/
theorem withIdEvents_not_message (idv : Option Json) (d : Json) (mt : Option Json) :
    ∀ e ∈ withIdEvents idv d mt, isMessageEv e = false := by
  intro e he
  unfold withIdEvents at he
  repeat' split at he
  all_goals simp_all [isMessageEv, List.mem_map]
  all_goals (obtain ⟨k, -, rfl⟩ := he; rfl)

/-- No branch of the no-`id` switch emits another generic `message`
event. -/
theorem noIdRest_not_message (d : Json) (mt : Option Json) :
    ∀ e ∈ (noIdRest d mt).1, isMessageEv e = false := by
  intro e he
  unfold noIdRest at he
  repeat' split at he
  all_goals simp_all [isMessageEv]

/-- The events after the generic `message` never include another
`message`. -/
theorem objRest_not_message (fields : List (String × Json)) :
    ∀ e ∈ (objRest fields).1, isMessageEv e = false := by
  intro e he
  unfold objRest at he
  split at he
  · exact withIdEvents_not_message _ _ _ e he
  · exact noIdRest_not_message _ _ e he
  · simp at he

/-! ## Claims -/

/-- C1: for every inbound text frame carrying both `id` and `data` with
messageType `propertyStatus`, the channel first emits the generic `message`
event with `(id, data)`, then one `propertyChanged(id, key, value)` per key
of `data`, in the iteration order of the keys as received, and nothing
else. -/
theorem c1_propertyStatus_dispatch (raw : String) (fields : List (String × Json))
    (i d : Json) (hraw : raw ≠ "")
    (hid : jsGet fields "id" = some i)
    (hdata : jsGet fields "data" = some d)
    (hmt : jsGet fields "messageType" = some (Json.str "propertyStatus")) :
    dispatch "utf8" (some raw) (Except.ok (Json.obj fields)) =
      ⟨Event.message (some i) (some d) ::
        (jsForInKeys d).map (fun k => Event.propertyChanged (some i) k (jsIndex d k)),
       false⟩ := by
  have hd : dispatch "utf8" (some raw) (Except.ok (Json.obj fields)) =
      handleObj fields := by
    simp [dispatch, jsTruthyStr, hraw, handleMsg]
  rw [hd]
  unfold handleObj objRest
  rw [hid, hdata, hmt]
  simp [withIdEvents, tyIs]

/-- C1 witness: the frame of the spec's example,
`\x7bid:"d1", data:\x7ba:1,b:2\x7d, messageType:"propertyStatus"\x7d`,
emits exactly `message`, `propertyChanged a`, `propertyChanged b`. -/
theorem c1_propertyStatus_dispatch_witness :
    dispatch "utf8" (some "frame") (Except.ok (Json.obj
        [("id", Json.str "d1"),
         ("data", Json.obj [("a", Json.num 1), ("b", Json.num 2)]),
         ("messageType", Json.str "propertyStatus")])) =
      ⟨[Event.message (some (Json.str "d1"))
          (some (Json.obj [("a", Json.num 1), ("b", Json.num 2)])),
        Event.propertyChanged (some (Json.str "d1")) "a" (some (Json.num 1)),
        Event.propertyChanged (some (Json.str "d1")) "b" (some (Json.num 2))],
       false⟩ := by
  have h := c1_propertyStatus_dispatch "frame"
    [("id", Json.str "d1"),
     ("data", Json.obj [("a", Json.num 1), ("b", Json.num 2)]),
     ("messageType", Json.str "propertyStatus")]
    (Json.str "d1") (Json.obj [("a", Json.num 1), ("b", Json.num 2)])
    (by decide) rfl rfl rfl
  simpa using h

/-- C2: every response with a status outside [200,300) makes the request
executor fail with an error carrying the exact status code and status text
(thrown as the string `code: text`), independently of method, path, body
flags, and of the response body — which is never parsed (the outcome is the
same whatever `response.json()` would have produced). -/
theorem c2_http_status_error (c : ClientCfg) (method path : String)
    (body : Option Json) (args : RequestArgs) (resp : FetchResponse)
    (h : resp.status < 200 ∨ 300 ≤ resp.status) :
    (request c method path body args resp).2 =
      Except.error (RequestError.httpStatus resp.status resp.statusText) ∧
    (∀ b : Except Unit Json,
      (request c method path body args
        ⟨resp.status, resp.statusText, resp.contentType, b⟩).2 =
      Except.error (RequestError.httpStatus resp.status resp.statusText)) ∧
    RequestError.rendered (RequestError.httpStatus resp.status resp.statusText) =
      some (toString resp.status ++ ": " ++ resp.statusText) := by
  refine ⟨?_, fun b => ?_, rfl⟩
  · simp [request, handleResponse, h]
  · simp [request, handleResponse, h]

/-- C2 witness: a 404 response fails with `404: Not Found` whatever the
body holds. -/
theorem c2_http_status_error_witness :
    (request (resolveLocal "tok" none) "GET" "/things" none ⟨true, false, false⟩
        ⟨404, "Not Found", some "application/json", Except.error ()⟩).2 =
      Except.error (RequestError.httpStatus 404 "Not Found") ∧
    (∀ b : Except Unit Json,
      (request (resolveLocal "tok" none) "GET" "/things" none ⟨true, false, false⟩
        ⟨404, "Not Found", some "application/json", b⟩).2 =
      Except.error (RequestError.httpStatus 404 "Not Found")) ∧
    RequestError.rendered (RequestError.httpStatus 404 "Not Found") =
      some (toString 404 ++ ": " ++ "Not Found") :=
  c2_http_status_error (resolveLocal "tok" none) "GET" "/things" none
    ⟨true, false, false⟩ ⟨404, "Not Found", some "application/json", Except.error ()⟩
    (by decide)

/-- C10: every text frame whose payload parses as a JSON object first emits
the generic `message` event with `(payload.id, payload.data)` — `none`
standing for `undefined` when a key is absent — and no later event of the
frame is another `message`. -/
theorem c10_generic_message_first (raw : String) (fields : List (String × Json))
    (hraw : raw ≠ "") :
    (dispatch "utf8" (some raw) (Except.ok (Json.obj fields))).events =
      Event.message (jsGet fields "id") (jsGet fields "data") :: (objRest fields).1 ∧
    ∀ e ∈ (objRest fields).1, isMessageEv e = false := by
  constructor
  · simp [dispatch, jsTruthyStr, hraw, handleMsg, handleObj]
  · exact objRest_not_message fields

/-- C10 witness: a frame with no `id`, no `data` and an unrecognized
messageType still emits `message(undefined, undefined)` and nothing else. -/
theorem c10_generic_message_first_witness :
    (dispatch "utf8" (some "x")
        (Except.ok (Json.obj [("messageType", Json.str "bogus")]))).events =
      [Event.message none none] :=
  (c10_generic_message_first "x" [("messageType", Json.str "bogus")] (by decide)).1

/-- C8: every request carries `Accept: application/json` and
`Authorization: Bearer token`; PUT/POST/DELETE specs declare a body and add
`Content-Type: application/json` (PUT/POST serializing the body as JSON,
DELETE sending the raw empty string), while GET sends no body and no
content-type header. -/
theorem c8_request_headers (c : ClientCfg) (path : String) (v : Option Json)
    (resp : FetchResponse) :
    ((getOp c path resp).1.headers =
        [("Accept", "application/json"), ("Authorization", "Bearer " ++ c.token)] ∧
      (getOp c path resp).1.body = none) ∧
    ((putOp c path v resp).1.headers =
        [("Accept", "application/json"), ("Authorization", "Bearer " ++ c.token),
         ("Content-Type", "application/json")] ∧
      (putOp c path v resp).1.body = stringifyTop v) ∧
    ((postOp c path v resp).1.headers =
        [("Accept", "application/json"), ("Authorization", "Bearer " ++ c.token),
         ("Content-Type", "application/json")] ∧
      (postOp c path v resp).1.body = stringifyTop v) ∧
    ((deleteUnderlying c path resp).1.headers =
        [("Accept", "application/json"), ("Authorization", "Bearer " ++ c.token),
         ("Content-Type", "application/json")] ∧
      (deleteUnderlying c path resp).1.body = some "") :=
  ⟨⟨rfl, rfl⟩, ⟨rfl, rfl⟩, ⟨rfl, rfl⟩, ⟨rfl, rfl⟩⟩

/-- C3: `delete(path)` neither awaits nor returns its inner `request`
(line 125), so while the underlying DELETE request rejects on a 404 with
`404: Not Found` — exactly as `get` on the same response does — the promise
`delete` hands to its caller resolves. The spec's propagation contract is
the evident intent (the method is declared `async ...: Promise<void>` and
every sibling operation returns its `request`), so this is a slip in the
code. -/
theorem c3_delete_swallows_failure :
    (deleteUnderlying (resolveLocal "tok" none) "/things/lamp"
        ⟨404, "Not Found", none, Except.error ()⟩).2 =
      Except.error (RequestError.httpStatus 404 "Not Found") ∧
    deleteOp (resolveLocal "tok" none) "/things/lamp"
        ⟨404, "Not Found", none, Except.error ()⟩ = Except.ok () ∧
    (getOp (resolveLocal "tok" none) "/things/lamp"
        ⟨404, "Not Found", none, Except.error ()⟩).2 =
      Except.error (RequestError.httpStatus 404 "Not Found") :=
  ⟨rfl, rfl, rfl⟩

/-- C4 counterexample: a utf8 text frame whose payload is not valid JSON is
not silently ignored — no event is raised, but the `JSON.parse` exception
escapes the dispatch path (`threw = true`), since the handler has no
try/catch. -/
theorem c4_invalid_json_throws :
    dispatch "utf8" (some "not json") (Except.error ()) = ⟨[], true⟩ := rfl

/-- C4 amended: frames that are not utf8 text frames (or whose text payload
is empty, hence falsy) are silently ignored — no event, no exception; a
non-empty utf8 text frame whose payload is not valid JSON raises no event
either, but the `JSON.parse` exception escapes the dispatch path. -/
theorem c4_nontext_ignored (ty : String) (raw : Option String)
    (parsed : Except Unit Json) :
    (¬ (ty = "utf8" ∧ jsTruthyStr raw = true) → dispatch ty raw parsed = ⟨[], false⟩) ∧
    (ty = "utf8" → jsTruthyStr raw = true → parsed = Except.error () →
      dispatch ty raw parsed = ⟨[], true⟩) := by
  constructor
  · intro h
    simp [dispatch, h]
  · intro h1 h2 h3
    subst h1 h3
    simp [dispatch, h2]

/-- C4 amended witness: a binary frame is dropped without any event or
exception. -/
theorem c4_nontext_ignored_witness :
    dispatch "binary" (some "payload") (Except.ok Json.null) = ⟨[], false⟩ :=
  (c4_nontext_ignored "binary" (some "payload") (Except.ok Json.null)).1 (by decide)

/-- C5 counterexample: a client resolved to the encrypted port (4443)
whose caller invokes `connect()` without an argument gets a socket at port
8080 — `connect`'s default parameter — not at the descriptor's port, while
protocol (`wss`) and address do come from the descriptor. -/
theorem c5_connect_ignores_descriptor_port :
    (resolveLocal "tok" (some "https://localhost:4443/")).port = 4443 ∧
    connectUrl (resolveLocal "tok" (some "https://localhost:4443/"))
        connectDefaultPort = "wss://localhost:8080/things?jwt=tok" ∧
    connectUrl (resolveLocal "tok" (some "https://localhost:4443/"))
        connectDefaultPort ≠ "wss://localhost:4443/things?jwt=tok" := by
  refine ⟨rfl, by decide, by decide⟩

/-- C5 amended: the socket URL is
`\x7bws|wss\x7d://\x7baddress\x7d:\x7bport\x7d/things?jwt=\x7btoken\x7d`
where protocol, address and token come from the resolved descriptor but the
port is `connect`'s own parameter (default 8080), whatever port the
resolver chose. -/
theorem c5_connect_url (token : String) (loc : Option String) (p : Nat) :
    (jsTruthyStr loc = true →
      connectUrl (resolveLocal token loc) p =
        "wss" ++ "://" ++ "localhost" ++ ":" ++ toString p ++ "/things" ++
          "?jwt=" ++ token) ∧
    (jsTruthyStr loc = false →
      connectUrl (resolveLocal token loc) p =
        "ws" ++ "://" ++ "localhost" ++ ":" ++ toString p ++ "/things" ++
          "?jwt=" ++ token) := by
  constructor
  · intro h
    simp [connectUrl, resolveLocal, webSocketProtocol, h]
  · intro h
    simp [connectUrl, resolveLocal, webSocketProtocol, h]

/-- C5 amended witness: an HTTP-resolved client connecting with an explicit
port 9090 gets `ws://localhost:9090/things?jwt=t`. -/
theorem c5_connect_url_witness :
    connectUrl (resolveLocal "t" none) 9090 = "ws://localhost:9090/things?jwt=t" := by
  have h := (c5_connect_url "t" none 9090).2 rfl
  simpa using h

/-- C6 counterexample: after a successful connect followed by the socket
closing, the channel is no longer `Connected`, yet `subscribeEvents` does
not fail with `NotConnectedError` — `this.connection` is never cleared, so
it still serializes the subscription and writes it to the dead socket. -/
theorem c6_send_after_close_still_writes :
    isConnected (afterClose (afterConnect initialChannel)) = false ∧
    subscribeEvents (afterClose (afterConnect initialChannel)) "d1" [] =
      Except.ok "\x7b\"messageType\":\"addEventSubscription\",\"id\":\"d1\",\"data\":\x7b\x7d\x7d" :=
  ⟨rfl, rfl⟩

/-- C6 amended: `subscribeEvents` fails with `Socket not connected!` and
writes nothing exactly when no connection was ever established
(`this.connection` unset — the state before any connect); whenever a
connection object exists, Connected or since closed, it serializes
`\x7bmessageType: 'addEventSubscription', id, data:
eventDescriptorsByName\x7d` and writes it to the socket. -/
theorem c6_subscribe_guard (st : ClientConn) (dev : String)
    (evs : List (String × Json)) :
    (st.connection = none →
      subscribeEvents st dev evs = Except.error "Socket not connected!") ∧
    (∀ w, st.connection = some w →
      subscribeEvents st dev evs =
        Except.ok (stringifyJson (subscriptionJson dev evs))) := by
  constructor
  · intro h
    simp [subscribeEvents, h]
  · intro w h
    simp [subscribeEvents, h]

/-- C6 amended witness: on a freshly constructed client the send fails with
`Socket not connected!`. -/
theorem c6_subscribe_guard_witness :
    subscribeEvents initialChannel "d1" [] =
      Except.error "Socket not connected!" :=
  (c6_subscribe_guard initialChannel "d1" []).1 rfl

/-- C7 counterexample: a probe response that carries a `Location` header
with the empty string as value is falsy, so the resolver keeps the
plaintext port with full validation, although the claim's redirect
condition (`a Location header is present`) holds. -/
theorem c7_empty_location_plaintext :
    (resolveLocal "tok" (some "")).useHttps = false ∧
    (resolveLocal "tok" (some "")).port = 8080 ∧
    (resolveLocal "tok" (some "")).skipValidation = false :=
  ⟨rfl, rfl, rfl⟩

/-- C7 amended: a truthy (present and non-empty) `Location` header on the
probe response yields the encrypted descriptor — port 4443, HTTPS,
certificate validation relaxed; an absent or empty header yields the
plaintext descriptor — port 8080, full validation. Both carry the caller's
token unchanged. -/
theorem c7_resolve_descriptor (token : String) (loc : Option String) :
    (jsTruthyStr loc = true →
      resolveLocal token loc = ⟨"localhost", 4443, token, true, true⟩) ∧
    (jsTruthyStr loc = false →
      resolveLocal token loc = ⟨"localhost", 8080, token, false, false⟩) := by
  constructor
  · intro h
    simp [resolveLocal, h]
  · intro h
    simp [resolveLocal, h]

/-- C7 amended witness: a redirect to the HTTPS endpoint yields the
encrypted descriptor with the same token. -/
theorem c7_resolve_descriptor_witness :
    resolveLocal "tok" (some "https://localhost:4443/") =
      ⟨"localhost", 4443, "tok", true, true⟩ :=
  (c7_resolve_descriptor "tok" (some "https://localhost:4443/")).1 (by decide)

/-- C9 counterexample: a no-`id` `actionStatus` frame whose data is not the
single key `pair` (here `\x7bfoo:1\x7d`) raises no specific event but is
NOT logged as unrecognized — the `actionStatus` case just breaks, only
other message types reach the `default` warn. -/
theorem c9_actionStatus_not_logged :
    dispatch "utf8" (some "frame")
        (Except.ok (Json.obj
          [("data", Json.obj [("foo", Json.num 1)]),
           ("messageType", Json.str "actionStatus")])) =
      ⟨[Event.message none (some (Json.obj [("foo", Json.num 1)]))], false⟩ := rfl

/-- C9 amended: for frames with `data` but no `id`: an `actionStatus` whose
data is exactly the single key `pair` raises `pair(value)` and no other
specific event; an `actionStatus` with any other key set raises no specific
event and is not logged; any other messageType raises no specific event and
is logged as unrecognized. -/
theorem c9_no_id_dispatch (raw : String) (fields : List (String × Json)) (d : Json)
    (hraw : raw ≠ "") (hid : jsGet fields "id" = none)
    (hdata : jsGet fields "data" = some d) :
    (jsGet fields "messageType" = some (Json.str "actionStatus") →
      objKeys d = Except.ok ["pair"] →
      dispatch "utf8" (some raw) (Except.ok (Json.obj fields)) =
        ⟨[Event.message none (some d), Event.pair (jsIndex d "pair")], false⟩) ∧
    (jsGet fields "messageType" = some (Json.str "actionStatus") →
      ∀ ks, objKeys d = Except.ok ks → ks ≠ ["pair"] →
      dispatch "utf8" (some raw) (Except.ok (Json.obj fields)) =
        ⟨[Event.message none (some d)], false⟩) ∧
    (tyIs (jsGet fields "messageType") "actionStatus" = false →
      dispatch "utf8" (some raw) (Except.ok (Json.obj fields)) =
        ⟨[Event.message none (some d), Event.warnUnknown], false⟩) := by
  have hd : dispatch "utf8" (some raw) (Except.ok (Json.obj fields)) =
      handleObj fields := by
    simp [dispatch, jsTruthyStr, hraw, handleMsg]
  rw [hd]
  unfold handleObj objRest
  rw [hid, hdata]
  refine ⟨fun hmt hkeys => ?_, fun hmt ks hkeys hne => ?_, fun hmt => ?_⟩
  · rw [hmt]
    simp [noIdRest, tyIs, hkeys]
  · rw [hmt]
    simp [noIdRest, tyIs, hkeys, hne]
  · simp [noIdRest, hmt]

/-- C9 amended witness: the spec's pairing example
`\x7bdata:\x7bpair:"xyz"\x7d, messageType:"actionStatus"\x7d` raises
`pair("xyz")` and no other specific event. -/
theorem c9_no_id_dispatch_witness :
    dispatch "utf8" (some "frame")
        (Except.ok (Json.obj
          [("data", Json.obj [("pair", Json.str "xyz")]),
           ("messageType", Json.str "actionStatus")])) =
      ⟨[Event.message none (some (Json.obj [("pair", Json.str "xyz")])),
        Event.pair (some (Json.str "xyz"))], false⟩ := by
  have h := (c9_no_id_dispatch "frame"
    [("data", Json.obj [("pair", Json.str "xyz")]),
     ("messageType", Json.str "actionStatus")]
    (Json.obj [("pair", Json.str "xyz")]) (by decide) rfl rfl).1 rfl rfl
  simpa using h

end WebThings
